import Mathlib

/-!
Verification of the background sync job core of the Delta Migration API
(`src/main.py`): line classification, exit-code classification,
transferred-count extraction, the job body `run_sync_background`,
and the start endpoint `sync_folders`, shallowly embedded in Lean.

Python strings are sequences of code points, so the string primitives the
source uses (`strip`, `startswith`, `endswith`, `lower`, `split`, slicing,
`in`, `int`) are modelled here as structurally recursive functions on the
character list of a Lean `String`. External I/O (filesystem probes, the
child process, the clock) is supplied through an explicit environment
record; the job body itself is translated statement by statement from the
source.
-/

/-- The whitespace characters stripped by Python's `str.strip()`
(ASCII range). -/
def isPySpace (c : Char) : Bool :=
  c == ' ' || c == '\t' || c == '\n' || c == '\r' ||
  c == Char.ofNat 11 || c == Char.ofNat 12

/-- Drop the longest prefix of characters satisfying `p`. -/
def dropLeading (p : Char → Bool) : List Char → List Char
  | [] => []
  | c :: cs => if p c then dropLeading p cs else c :: cs

/-- Python's `s.strip()`: remove leading and trailing whitespace. -/
def pyStrip (s : String) : String :=
  ⟨(dropLeading isPySpace (dropLeading isPySpace s.data).reverse).reverse⟩

/-- `matchesAt pat s`: `pat` is a prefix of `s` (character lists). -/
def matchesAt : List Char → List Char → Bool
  | [], _ => true
  | _ :: _, [] => false
  | p :: ps, c :: cs => p == c && matchesAt ps cs

/-- Python's `s.startswith(pat)`. -/
def pyStartsWith (s pat : String) : Bool :=
  matchesAt pat.data s.data

/-- Python's `s.endswith(pat)`. -/
def pyEndsWith (s pat : String) : Bool :=
  matchesAt pat.data.reverse s.data.reverse

/-- `containsSub pat s`: `pat` occurs as a contiguous sublist of `s`. -/
def containsSub (pat : List Char) : List Char → Bool
  | [] => matchesAt pat []
  | c :: cs => matchesAt pat (c :: cs) || containsSub pat cs

/-- Python's `pat in s` substring test. -/
def containsSubstr (s pat : String) : Bool :=
  containsSub pat.data s.data

/-- ASCII lowercasing of one character, as Python's `str.lower()` does on
the ASCII range. -/
def pyCharLower (c : Char) : Char :=
  if 'A' ≤ c && c ≤ 'Z' then Char.ofNat (c.toNat + 32) else c

/-- Python's `s.lower()`. -/
def pyLower (s : String) : String :=
  ⟨s.data.map pyCharLower⟩

/-- Split a character list on a separator character, keeping empty
segments, as Python's `s.split(sep)` does for a one-character `sep`. -/
def splitOnChar (sep : Char) : List Char → List (List Char)
  | [] => [[]]
  | c :: cs =>
    let r := splitOnChar sep cs
    if c == sep then [] :: r
    else
      match r with
      | [] => [[c]]
      | g :: gs => (c :: g) :: gs

/-- Python's `s.split(sep)` for a one-character separator. -/
def pySplit (s : String) (sep : Char) : List String :=
  (splitOnChar sep s.data).map (fun g => ⟨g⟩)

/-- Python's `s[:n]` slice. -/
def pyTake (s : String) (n : Nat) : String :=
  ⟨s.data.take n⟩

/-- Python's `round` on an exact rational: round half to even. -/
def pyRound (q : ℚ) : ℤ :=
  let f : ℤ := ⌊q⌋
  let r : ℚ := q - (f : ℚ)
  if r < 1/2 then f
  else if 1/2 < r then f + 1
  else if f % 2 = 0 then f else f + 1

/-- Python's `round(num / den)` for naturals, computed on the exact
ratio: round half to even. `pyRoundRatio_eq_pyRound` below identifies it
with `pyRound` of the rational `num / den`. -/
def pyRoundRatio (num den : Nat) : Nat :=
  let f := num / den
  let r := num % den
  if 2 * r < den then f
  else if den < 2 * r then f + 1
  else if f % 2 = 0 then f else f + 1

/-- Digit-string to number, `none` if empty or a non-digit appears. -/
def digitsToNat (cs : List Char) : Option Nat :=
  if cs.isEmpty then none
  else if cs.all Char.isDigit then
    some (cs.foldl (fun a c => a * 10 + (c.toNat - 48)) 0)
  else none

/-- Python's `int(s)`: surrounding whitespace ignored, optional sign,
then decimal digits; `none` models `ValueError`. -/
def pyInt (s : String) : Option Int :=
  match (pyStrip s).data with
  | [] => none
  | c :: cs =>
    if c == '-' then (digitsToNat cs).map (fun n => -(n : Int))
    else if c == '+' then (digitsToNat cs).map (fun n => (n : Int))
    else (digitsToNat (c :: cs)).map (fun n => (n : Int))

/-- The `sync_state["progress"]` dict (src/main.py lines 122-129). -/
structure SyncProgress where
  status : String
  started_at : String
  current_file : Option String
  files_completed : Nat
  total_files : Nat
  percentage : ℤ
  deriving DecidableEq

/-- The `sync_state["last_sync"]` dict (src/main.py lines 150-156, 242-248). -/
structure SyncResult where
  status : String
  message : String
  timestamp : String
  files_transferred : ℤ
  warnings : Option (List String)
  deriving DecidableEq

/-- The module-level `sync_state` dict (src/main.py lines 39-43). -/
structure SyncState where
  is_running : Bool
  progress : Option SyncProgress
  last_sync : Option SyncResult
  deriving DecidableEq

/-- `sync_state`'s initial value (src/main.py lines 39-43). -/
def initial_sync_state : SyncState :=
  { is_running := false, progress := none, last_sync := none }

/-- Line classification in the stdout loop (src/main.py lines 186-187):
the line is stripped first, then tested for non-emptiness, a leading
space, and a trailing slash. -/
def classifyLine (line : String) : Bool :=
  let ls := pyStrip line
  !(ls == "") && !(pyStartsWith ls " ") && !(pyEndsWith ls "/")

/-- Exit-code classification (src/main.py lines 204-225): returns
`(status, message, warnings appended)`. -/
def classifyOutcome (result_returncode : Int) (stderr : String) : String × String × List String :=
  let stderr_lower := pyLower stderr
  if result_returncode == 0 then
    ("success", "Sync completed", [])
  else if [(3 : Int)].contains result_returncode then
    ("failed", "Permission denied", [])
  else if result_returncode == 11 then
    ("failed",
      if containsSubstr stderr_lower "no space left" then "Disk full" else "Disk I/O error",
      [])
  else if result_returncode == 23 then
    ("warning", "Partial transfer - some files failed", ["Some files had errors"])
  else if result_returncode == 24 then
    ("warning", "Files vanished during sync", ["Some files were deleted during sync"])
  else
    ("failed", s!"Rsync failed with code {result_returncode}", [])

/-- One line's contribution to `files_transferred` (src/main.py lines
230-235): `some n` when the line contains the label and
`int(line.split(':')[1].strip())` succeeds, else `none`. -/
def lineValue (line : String) : Option Int :=
  if containsSubstr line "Number of regular files transferred:" then
    ((pySplit line ':').get? 1).bind (fun seg => pyInt (pyStrip seg))
  else none

/-- Loop step of the extraction (src/main.py lines 230-235): a parse
failure leaves the accumulator unchanged. -/
def transferStep (acc : Int) (line : String) : Int :=
  match lineValue line with
  | some n => n
  | none => acc

/-- `files_transferred` extraction over the combined output
(src/main.py lines 227-235). -/
def extractTransferredCount (output : String) : Int :=
  (pySplit output '\n').foldl transferStep 0

deriving instance DecidableEq for Except

/-- Result of the destination write-access probe (src/main.py lines
161-166): the probe may succeed, raise `PermissionError` (translated by
the source into a job failure naming the destination), or raise some
other exception that propagates to the top-level handler. -/
inductive WriteTestResult
  | ok
  | permissionError
  | otherError (msg : String)
  deriving DecidableEq

/-- Observable behaviour of the launched rsync child process: its stdout
lines (as iterated by `for line in process.stdout`), its exit code, and
its captured stderr. -/
structure ProcOut where
  stdout_lines : List String
  exit_code : Int
  stderr : String
  deriving DecidableEq

/-- Environment of one job run: everything `run_sync_background` obtains
from the outside world (clock, configured paths, `count_source_files`,
`check_rsync_available`, `SOURCE_DIR.exists`, `SOURCE_DIR.iterdir`,
`DESTINATION_DIR.mkdir`, the write probe, `get_disk_space`, and
`subprocess.Popen`). Fallible calls are `Except`-valued; the `error`
payload is the raised exception's text. -/
structure Env where
  now : String
  source_dir : String
  destination_dir : String
  total_files : Nat
  rsync_available : Bool
  source_exists : Bool
  source_nonempty : Except String Bool
  mkdir_result : Except String Unit
  write_test : WriteTestResult
  free_gb : ℚ
  popen : Except String ProcOut

/-- The literal `0.5` of the free-space check (src/main.py line 169), as
the rational 1/2 in lowest terms (written via the `Rat` constructor so
that it reduces definitionally). -/
def halfGB : ℚ := ⟨1, 2, by decide, by decide⟩

/-- Result of the `try` block of `run_sync_background`: either the final
state it wrote, or the text of the exception that escaped to the
`except` handler; `trace` lists the states written under `sync_lock`, in
order; `invoked_rsync` records whether control reached the
`subprocess.Popen` call. -/
structure BodyOut where
  result : Except String SyncState
  trace : List SyncState
  invoked_rsync : Bool

/-- Final outcome of `run_sync_background`, after the `except` handler. -/
structure RunOut where
  final : SyncState
  trace : List SyncState
  invoked_rsync : Bool
  deriving DecidableEq

/-- One iteration of the stdout loop (src/main.py lines 184-194), acting
on `(files_completed, sync_state, trace so far)`. The appended lines are
also collected into `stdout_lines` by the source; that list is taken
from the environment directly. -/
def lineStep (total_files : Nat) (acc : Nat × SyncState × List SyncState) (line : String) :
    Nat × SyncState × List SyncState :=
  let fc := acc.1
  let s := acc.2.1
  let tr := acc.2.2
  if classifyLine line then
    let fc' := fc + 1
    let s' :=
      match s.progress with
      | none => s
      | some p =>
        { s with progress := some { p with
            current_file := some (pyTake (pyStrip line) 100),
            files_completed := fc',
            percentage :=
              if 0 < total_files then
                min 99 ((pyRoundRatio (fc' * 100) total_files : ℤ))
              else p.percentage } }
    (fc', s', tr ++ [s'])
  else (fc, s, tr)

/-- The `try` block of `run_sync_background` (src/main.py lines 117-248),
translated statement by statement. -/
def run_sync_body (env : Env) (s0 : SyncState) : BodyOut :=
  let total_files := env.total_files
  let s1 : SyncState :=
    { is_running := true,
      progress := some
        { status := "running", started_at := env.now, current_file := none,
          files_completed := 0, total_files := total_files, percentage := 0 },
      last_sync := s0.last_sync }
  if !env.rsync_available then
    { result := .error "rsync not installed", trace := [s1], invoked_rsync := false }
  else if !env.source_exists then
    let sd := env.source_dir
    { result := .error s!"Source not found: {sd}", trace := [s1], invoked_rsync := false }
  else
    let source_empty :=
      match env.source_nonempty with
      | .ok b => !b
      | .error _ => false
    if source_empty then
      let s2 : SyncState :=
        { is_running := false, progress := none,
          last_sync := some
            { status := "success", message := "Source is empty - nothing to sync",
              timestamp := env.now, files_transferred := 0,
              warnings := some ["Source directory is empty"] } }
      { result := .ok s2, trace := [s1, s2], invoked_rsync := false }
    else
      match env.mkdir_result with
      | .error msg => { result := .error msg, trace := [s1], invoked_rsync := false }
      | .ok _ =>
        match env.write_test with
        | .permissionError =>
          let dd := env.destination_dir
          { result := .error s!"Cannot write to destination: {dd}", trace := [s1],
            invoked_rsync := false }
        | .otherError msg => { result := .error msg, trace := [s1], invoked_rsync := false }
        | .ok =>
          if env.free_gb < halfGB then
            let fg := env.free_gb
            { result := .error s!"Low disk space: only {fg}GB free", trace := [s1],
              invoked_rsync := false }
          else
            match env.popen with
            | .error msg => { result := .error msg, trace := [s1], invoked_rsync := true }
            | .ok proc =>
              let r := proc.stdout_lines.foldl (lineStep total_files) (0, s1, [s1])
              let co := classifyOutcome proc.exit_code proc.stderr
              let result_stdout := String.join proc.stdout_lines
              let output := result_stdout ++ proc.stderr
              let files_transferred := extractTransferredCount output
              let sF : SyncState :=
                { is_running := false, progress := none,
                  last_sync := some
                    { status := co.1, message := co.2.1, timestamp := env.now,
                      files_transferred := files_transferred,
                      warnings := if co.2.2.isEmpty then none else some co.2.2 } }
              { result := .ok sF, trace := r.2.2 ++ [sF], invoked_rsync := true }

/-- `run_sync_background` (src/main.py lines 113-261): the `try` block
plus the top-level `except` handler that converts any escaped exception
into a failed `last_sync` with `is_running` and `progress` cleared. -/
def run_sync_background (env : Env) (s0 : SyncState) : RunOut :=
  let b := run_sync_body env s0
  match b.result with
  | .ok sF => { final := sF, trace := b.trace, invoked_rsync := b.invoked_rsync }
  | .error msg =>
    let sE : SyncState :=
      { is_running := false, progress := none,
        last_sync := some
          { status := "failed", message := msg, timestamp := env.now,
            files_transferred := 0, warnings := none } }
    { final := sE, trace := b.trace ++ [sE], invoked_rsync := b.invoked_rsync }

/-- An `HTTPException` raised by the endpoint (src/main.py lines 268-274). -/
structure HTTPError where
  status_code : Nat
  detail : String
  deriving DecidableEq

/-- The acknowledgement returned by a successful `POST /sync`
(src/main.py lines 278-284). -/
structure StartResponse where
  status : String
  message : String
  timestamp : String
  source_path : String
  destination_path : String
  deriving DecidableEq

/-- Environment of the start endpoint: clock, configured paths, and the
two availability probes it performs. -/
structure StartEnv where
  rsync_available : Bool
  source_exists : Bool
  now : String
  source_dir : String
  destination_dir : String

/-- Outcome of one `sync_folders` call: the HTTP response (or raised
`HTTPException`), the shared state as it is after the call, and whether
`run_sync_background` was handed to `background_tasks.add_task`. -/
structure StartOut where
  response : Except HTTPError StartResponse
  state : SyncState
  scheduled : Bool
  deriving DecidableEq

/-- The `POST /sync` endpoint `sync_folders` (src/main.py lines 264-284). -/
def sync_folders (env : StartEnv) (s : SyncState) : StartOut :=
  if s.is_running then
    { response := .error { status_code := 409, detail := "Sync already in progress" },
      state := s, scheduled := false }
  else if !env.rsync_available then
    { response := .error { status_code := 500, detail := "rsync not installed" },
      state := s, scheduled := false }
  else if !env.source_exists then
    let sd := env.source_dir
    { response := .error { status_code := 404, detail := s!"Source not found: {sd}" },
      state := s, scheduled := false }
  else
    { response := .ok
        { status := "started", message := "Sync started in background",
          timestamp := env.now, source_path := env.source_dir,
          destination_path := env.destination_dir },
      state := s, scheduled := true }

/-- A 150-character item name, for the truncation witness. -/
def longItemName : String := ⟨List.replicate 150 'a'⟩

/-- A running state holding the initial progress snapshot. -/
def runningStateW : SyncState :=
  { is_running := true,
    progress := some
      { status := "running", started_at := "t0", current_file := none,
        files_completed := 0, total_files := 2, percentage := 0 },
    last_sync := none }

/-- Job environment with the sync tool unavailable; the source is present
and nonempty, every later probe would succeed. -/
def envNoRsync : Env :=
  { now := "t0", source_dir := "/data/source", destination_dir := "/data/destination",
    total_files := 2, rsync_available := false, source_exists := true,
    source_nonempty := .ok true, mkdir_result := .ok (), write_test := .ok,
    free_gb := 10, popen := .error "unused" }

/-- Job environment whose source directory exists and enumerates as
empty. -/
def envEmptySource : Env :=
  { now := "t0", source_dir := "/data/source", destination_dir := "/data/destination",
    total_files := 0, rsync_available := true, source_exists := true,
    source_nonempty := .ok false, mkdir_result := .ok (), write_test := .ok,
    free_gb := 10, popen := .error "unused" }

/-- The C4 invariant: `is_running` holds exactly when `progress` is
present. -/
def running_progress_consistent (s : SyncState) : Prop :=
  s.is_running = s.progress.isSome

/-- The C7 invariant at a given `total_files`: any present progress has
a percentage in `[0, 99]`, pinned to 0 when `total_files = 0`. -/
def percentage_ok (tf : Nat) (s : SyncState) : Prop :=
  ∀ p, s.progress = some p →
    0 ≤ p.percentage ∧ p.percentage ≤ 99 ∧ (tf = 0 → p.percentage = 0)

example : classifyLine "some/file.txt" = true := by decide
example : classifyLine "some/dir/" = false := by decide
example : classifyLine "" = false := by decide
example : pyInt " 42 " = some 42 := by decide
example : pyInt "1,234" = none := by decide

/-- C1. The source strips the line before testing `startswith(' ')`
(src/main.py lines 186-187), so the leading-space test can never fire:
the space-prefixed statistics line of the claim is classified as an
item-completion event by the code, not as noise, while the trailing-slash
and plain-file examples behave as claimed. -/
theorem stats_line_counts_as_item :
    classifyLine "  1,234 100%  0.00kB/s" = true ∧
    classifyLine "some/dir/" = false ∧
    classifyLine "some/file.txt" = true := by
  exact ⟨by decide, by decide, by decide⟩

/-- C2. The exit-code classification matches the spec's table: 0 maps to
success "Sync completed"; 3 to failed "Permission denied"; 11 to failed
"Disk full" when the lowercased stderr contains "no space left" and to
failed "Disk I/O error" otherwise; 23 and 24 to warnings with the
corresponding warning note appended; every other code to failed
"Rsync failed with code {exitCode}". -/
theorem classifyOutcome_matches_table (c : Int) (stderr : String) :
    classifyOutcome 0 stderr = ("success", "Sync completed", []) ∧
    classifyOutcome 3 stderr = ("failed", "Permission denied", []) ∧
    (containsSubstr (pyLower stderr) "no space left" = true →
      classifyOutcome 11 stderr = ("failed", "Disk full", [])) ∧
    (containsSubstr (pyLower stderr) "no space left" = false →
      classifyOutcome 11 stderr = ("failed", "Disk I/O error", [])) ∧
    classifyOutcome 23 stderr =
      ("warning", "Partial transfer - some files failed", ["Some files had errors"]) ∧
    classifyOutcome 24 stderr =
      ("warning", "Files vanished during sync", ["Some files were deleted during sync"]) ∧
    (c ∉ ([0, 3, 11, 23, 24] : List Int) →
      classifyOutcome c stderr = ("failed", s!"Rsync failed with code {c}", [])) := by
  refine ⟨rfl, rfl, ?_, ?_, rfl, rfl, ?_⟩
  · intro h
    simp [classifyOutcome, h]
  · intro h
    simp [classifyOutcome, h]
  · intro h
    simp only [List.mem_cons, List.not_mem_nil, or_false, not_or] at h
    obtain ⟨h0, h3, h11, h23, h24⟩ := h
    simp [classifyOutcome, h0, h3, h11, h23, h24]

/-- Witness for `classifyOutcome_matches_table` at exit code 99 and at a
stderr mentioning a full disk. -/
theorem classifyOutcome_matches_table_witness :
    classifyOutcome 11 "rsync: No space left on device (28)" = ("failed", "Disk full", []) ∧
    classifyOutcome 99 "boom" = ("failed", "Rsync failed with code 99", []) :=
  ⟨(classifyOutcome_matches_table 99 "rsync: No space left on device (28)").2.2.1 (by decide),
   (classifyOutcome_matches_table 99 "boom").2.2.2.2.2.2 (by decide)⟩

/-- Helper: a run of lines none of which updates the accumulator leaves
the fold of `transferStep` unchanged. -/
lemma foldl_transferStep_of_none (l : List String) (a : Int)
    (h : ∀ x ∈ l, lineValue x = none) : l.foldl transferStep a = a := by
  induction l generalizing a with
  | nil => rfl
  | cons x xs ih =>
    have hx : lineValue x = none := h x (by simp)
    have : transferStep a x = a := by simp [transferStep, hx]
    simp only [List.foldl_cons, this]
    exact ih a (fun y hy => h y (by simp [hy]))

/-- C8. The transferred-count extraction returns 0 when no output line
contains the label; otherwise the last label line whose value parses
wins, and a label line whose value fails to parse leaves the previously
accumulated value in place. -/
theorem extractTransferredCount_last_parse_wins (output : String) :
    ((∀ line ∈ pySplit output '\n',
        containsSubstr line "Number of regular files transferred:" = false) →
      extractTransferredCount output = 0) ∧
    (∀ (pre post : List String) (line : String) (n : Int),
      pySplit output '\n' = pre ++ line :: post →
      lineValue line = some n →
      (∀ l ∈ post, lineValue l = none) →
      extractTransferredCount output = n) ∧
    (∀ (acc : Int) (line : String), lineValue line = none →
      transferStep acc line = acc) := by
  refine ⟨?_, ?_, ?_⟩
  · intro h
    apply foldl_transferStep_of_none
    intro x hx
    simp [lineValue, h x hx]
  · intro pre post line n hsplit hline hpost
    unfold extractTransferredCount
    rw [hsplit, List.foldl_append, List.foldl_cons]
    have : transferStep (pre.foldl transferStep 0) line = n := by
      simp [transferStep, hline]
    rw [this]
    exact foldl_transferStep_of_none post n hpost
  · intro acc line h
    simp [transferStep, h]

/-- Witness for `extractTransferredCount_last_parse_wins`: two parsing
label lines followed by an unparseable one; the second value (7) wins. -/
theorem extractTransferredCount_last_parse_wins_witness :
    extractTransferredCount
      "Number of regular files transferred: 5\nNumber of regular files transferred: 7\nNumber of regular files transferred: x" = 7 :=
  (extractTransferredCount_last_parse_wins
      "Number of regular files transferred: 5\nNumber of regular files transferred: 7\nNumber of regular files transferred: x").2.1
    ["Number of regular files transferred: 5"]
    ["Number of regular files transferred: x"]
    "Number of regular files transferred: 7" 7
    (by decide) (by decide) (by decide)

lemma string_length_mk (l : List Char) : (⟨l⟩ : String).length = l.length := rfl

/-- C9. A qualifying output line stores the stripped line truncated to
at most 100 characters in `current_file`; when the stripped line exceeds
100 characters, the stored string has length exactly 100. -/
theorem current_file_truncated (total_files fc : Nat) (s : SyncState)
    (tr : List SyncState) (line : String) (p : SyncProgress)
    (hq : classifyLine line = true) (hp : s.progress = some p) :
    ∃ p', ((lineStep total_files (fc, s, tr) line).2.1).progress = some p' ∧
      p'.current_file = some (pyTake (pyStrip line) 100) ∧
      (pyTake (pyStrip line) 100).length ≤ 100 ∧
      (100 < (pyStrip line).length → (pyTake (pyStrip line) 100).length = 100) := by
  refine ⟨{ p with
      current_file := some (pyTake (pyStrip line) 100),
      files_completed := fc + 1,
      percentage :=
        if 0 < total_files then
          min 99 ((pyRoundRatio ((fc + 1) * 100) total_files : ℤ))
        else p.percentage }, ?_, rfl, ?_, ?_⟩
  · simp [lineStep, hq, hp]
  · simp only [pyTake, string_length_mk, List.length_take]
    exact min_le_left _ _
  · intro h
    simp only [pyTake, string_length_mk, List.length_take]
    exact min_eq_left (le_of_lt h)

/-- Witness for `current_file_truncated` at a 150-character line. -/
theorem current_file_truncated_witness :
    ∃ p', ((lineStep 2 (0, runningStateW, []) longItemName).2.1).progress = some p' ∧
      p'.current_file = some (pyTake (pyStrip longItemName) 100) ∧
      (pyTake (pyStrip longItemName) 100).length ≤ 100 ∧
      (100 < (pyStrip longItemName).length →
        (pyTake (pyStrip longItemName) 100).length = 100) :=
  current_file_truncated 2 0 runningStateW [] longItemName
    { status := "running", started_at := "t0", current_file := none,
      files_completed := 0, total_files := 2, percentage := 0 }
    (by decide) rfl

/-- C5. A `POST /sync` issued while `is_running` holds fails with HTTP
409 "Sync already in progress", schedules nothing, and leaves the shared
state unchanged; the environment (tool availability, source existence)
is arbitrary, so the conflict check precedes both availability checks. -/
theorem sync_folders_conflict (env : StartEnv) (s : SyncState)
    (h : s.is_running = true) :
    sync_folders env s =
      { response := .error { status_code := 409, detail := "Sync already in progress" },
        state := s, scheduled := false } := by
  simp [sync_folders, h]

/-- Witness for `sync_folders_conflict`: a running state rejected even
though rsync is missing and the source is absent. -/
theorem sync_folders_conflict_witness :
    sync_folders
      { rsync_available := false, source_exists := false, now := "t0",
        source_dir := "/data/source", destination_dir := "/data/destination" }
      { is_running := true, progress := none, last_sync := none } =
      { response := .error { status_code := 409, detail := "Sync already in progress" },
        state := { is_running := true, progress := none, last_sync := none },
        scheduled := false } :=
  sync_folders_conflict
    { rsync_available := false, source_exists := false, now := "t0",
      source_dir := "/data/source", destination_dir := "/data/destination" }
    { is_running := true, progress := none, last_sync := none } rfl

/-- C10. `sync_folders` never mutates the shared state on any path (it
only reads `is_running` under the lock), and a successful acknowledgement
is returned while the observed state still has `is_running = false`. -/
theorem sync_folders_reads_only (env : StartEnv) (s : SyncState) :
    (sync_folders env s).state = s ∧
    (∀ r, (sync_folders env s).response = .ok r → s.is_running = false) := by
  constructor
  · unfold sync_folders
    split <;> [rfl; (split <;> [rfl; (split <;> rfl)])]
  · intro r hr
    unfold sync_folders at hr
    by_cases h : s.is_running
    · simp [h] at hr
    · simpa using h

/-- Witness for `sync_folders_reads_only` on the success path. -/
theorem sync_folders_reads_only_witness :
    (sync_folders
      { rsync_available := true, source_exists := true, now := "t0",
        source_dir := "/data/source", destination_dir := "/data/destination" }
      initial_sync_state).state = initial_sync_state ∧
    initial_sync_state.is_running = false :=
  ⟨(sync_folders_reads_only
      { rsync_available := true, source_exists := true, now := "t0",
        source_dir := "/data/source", destination_dir := "/data/destination" }
      initial_sync_state).1,
   (sync_folders_reads_only
      { rsync_available := true, source_exists := true, now := "t0",
        source_dir := "/data/source", destination_dir := "/data/destination" }
      initial_sync_state).2
    { status := "started", message := "Sync started in background",
      timestamp := "t0", source_path := "/data/source",
      destination_path := "/data/destination" }
    (by decide)⟩

/-- C3. Whatever exception escapes the `try` block of the job body, the
`except` handler terminates the run with `is_running = false`,
`progress = None`, and a failed `last_sync` whose message is the
exception's text. -/
theorem job_failure_reaches_idle (env : Env) (s0 : SyncState) (msg : String)
    (h : (run_sync_body env s0).result = .error msg) :
    (run_sync_background env s0).final =
      { is_running := false, progress := none,
        last_sync := some
          { status := "failed", message := msg, timestamp := env.now,
            files_transferred := 0, warnings := none } } := by
  simp only [run_sync_background, h]

/-- Witness for `job_failure_reaches_idle`: the re-validation of tool
availability inside the job body raises "rsync not installed". -/
theorem job_failure_reaches_idle_witness :
    (run_sync_background envNoRsync initial_sync_state).final =
      { is_running := false, progress := none,
        last_sync := some
          { status := "failed", message := "rsync not installed", timestamp := "t0",
            files_transferred := 0, warnings := none } } :=
  job_failure_reaches_idle envNoRsync initial_sync_state "rsync not installed" (by decide)

/-- C6. If the tool re-validation and source re-validation pass and the
source directory enumerates as empty, the job body short-circuits: rsync
is never invoked and the final state is a success result with zero files
transferred and exactly the warning "Source directory is empty". -/
theorem empty_source_short_circuit (env : Env) (s0 : SyncState)
    (h1 : env.rsync_available = true) (h2 : env.source_exists = true)
    (h3 : env.source_nonempty = Except.ok false) :
    (run_sync_background env s0).invoked_rsync = false ∧
    (run_sync_background env s0).final =
      { is_running := false, progress := none,
        last_sync := some
          { status := "success", message := "Source is empty - nothing to sync",
            timestamp := env.now, files_transferred := 0,
            warnings := some ["Source directory is empty"] } } := by
  have hbody : run_sync_body env s0 =
      { result := Except.ok
          { is_running := false, progress := none,
            last_sync := some
              { status := "success", message := "Source is empty - nothing to sync",
                timestamp := env.now, files_transferred := 0,
                warnings := some ["Source directory is empty"] } },
        trace := [
          { is_running := true,
            progress := some
              { status := "running", started_at := env.now, current_file := none,
                files_completed := 0, total_files := env.total_files, percentage := 0 },
            last_sync := s0.last_sync },
          { is_running := false, progress := none,
            last_sync := some
              { status := "success", message := "Source is empty - nothing to sync",
                timestamp := env.now, files_transferred := 0,
                warnings := some ["Source directory is empty"] } }],
        invoked_rsync := false } := by
    unfold run_sync_body
    rw [h1, h2, h3]
    rfl
  unfold run_sync_background
  rw [hbody]
  exact ⟨rfl, rfl⟩

/-- Witness for `empty_source_short_circuit`. -/
theorem empty_source_short_circuit_witness :
    (run_sync_background envEmptySource initial_sync_state).invoked_rsync = false ∧
    (run_sync_background envEmptySource initial_sync_state).final =
      { is_running := false, progress := none,
        last_sync := some
          { status := "success", message := "Source is empty - nothing to sync",
            timestamp := "t0", files_transferred := 0,
            warnings := some ["Source directory is empty"] } } :=
  empty_source_short_circuit envEmptySource initial_sync_state rfl rfl rfl

/-- Helper: a predicate preserved by one loop step is preserved by the
whole stdout loop, for the accumulator state and every recorded trace
entry. -/
lemma foldl_lineStep_pred (P : SyncState → Prop) (tf : Nat)
    (hstep : ∀ (acc : Nat × SyncState × List SyncState) (line : String),
      P acc.2.1 → (∀ x ∈ acc.2.2, P x) →
      P (lineStep tf acc line).2.1 ∧ ∀ x ∈ (lineStep tf acc line).2.2, P x)
    (lines : List String) (acc : Nat × SyncState × List SyncState)
    (hs : P acc.2.1) (ht : ∀ x ∈ acc.2.2, P x) :
    P ((lines.foldl (lineStep tf) acc).2.1) ∧
      ∀ x ∈ (lines.foldl (lineStep tf) acc).2.2, P x := by
  induction lines generalizing acc with
  | nil => exact ⟨hs, ht⟩
  | cons l ls ih =>
    simp only [List.foldl_cons]
    obtain ⟨hs', ht'⟩ := hstep acc l hs ht
    exact ih _ hs' ht'

/-- Helper: every state the job body writes under the lock satisfies any
predicate that holds of the initial running snapshot, holds of every
idle state (`is_running` false, `progress` cleared), and is preserved by
the stdout loop step. -/
lemma body_trace_pred (P : SyncState → Prop) (env : Env) (s0 : SyncState)
    (h1 : P { is_running := true,
              progress := some
                { status := "running", started_at := env.now, current_file := none,
                  files_completed := 0, total_files := env.total_files, percentage := 0 },
              last_sync := s0.last_sync })
    (h0 : ∀ s : SyncState, s.is_running = false → s.progress = none → P s)
    (hstep : ∀ (acc : Nat × SyncState × List SyncState) (line : String),
      P acc.2.1 → (∀ x ∈ acc.2.2, P x) →
      P (lineStep env.total_files acc line).2.1 ∧
        ∀ x ∈ (lineStep env.total_files acc line).2.2, P x) :
    ∀ x ∈ (run_sync_body env s0).trace, P x := by
  intro x hx
  obtain ⟨now, sd, dd, tf, ra, se, sne, mkr, wt, fg, po⟩ := env
  dsimp only at h1 hstep hx
  simp only [run_sync_body] at hx
  cases ra with
  | false => simp at hx; subst hx; exact h1
  | true =>
  cases se with
  | false => simp at hx; subst hx; exact h1
  | true =>
  rcases sne with msg | b
  case error =>
    simp only [Bool.not_true, Bool.false_and, if_false, ite_false, Bool.false_eq_true] at hx
    rcases mkr with msg2 | u
    case error => simp at hx; subst hx; exact h1
    case ok =>
    cases wt with
    | permissionError => simp at hx; subst hx; exact h1
    | otherError msg3 => simp at hx; subst hx; exact h1
    | ok =>
    by_cases hfg : fg < halfGB
    · simp [hfg] at hx; subst hx; exact h1
    · simp only [hfg, if_false, ite_false] at hx
      rcases po with pmsg | proc
      · simp at hx; subst hx; exact h1
      · simp at hx
        rcases hx with h | h
        · exact (foldl_lineStep_pred P tf hstep proc.stdout_lines
            (0, ⟨true, some ⟨"running", now, none, 0, tf, 0⟩, s0.last_sync⟩,
              [⟨true, some ⟨"running", now, none, 0, tf, 0⟩, s0.last_sync⟩]) h1
            (fun y hy => by simp at hy; subst hy; exact h1)).2 x h
        · subst h; exact h0 _ rfl rfl
  case ok =>
    cases b with
    | false =>
      simp at hx
      rcases hx with hx | hx
      · subst hx; exact h1
      · subst hx; exact h0 _ rfl rfl
    | true =>
      simp only [Bool.not_true, if_false, ite_false] at hx
      rcases mkr with msg2 | u
      case error => simp at hx; subst hx; exact h1
      case ok =>
      cases wt with
      | permissionError => simp at hx; subst hx; exact h1
      | otherError msg3 => simp at hx; subst hx; exact h1
      | ok =>
      by_cases hfg : fg < halfGB
      · simp [hfg] at hx; subst hx; exact h1
      · simp only [hfg, if_false, ite_false] at hx
        rcases po with pmsg | proc
        · simp at hx; subst hx; exact h1
        · simp at hx
          rcases hx with h | h
          · exact (foldl_lineStep_pred P tf hstep proc.stdout_lines
              (0, ⟨true, some ⟨"running", now, none, 0, tf, 0⟩, s0.last_sync⟩,
                [⟨true, some ⟨"running", now, none, 0, tf, 0⟩, s0.last_sync⟩]) h1
              (fun y hy => by simp at hy; subst hy; exact h1)).2 x h
          · subst h; exact h0 _ rfl rfl

/-- Helper: lift `body_trace_pred` through the `except` handler. -/
lemma run_trace_pred (P : SyncState → Prop) (env : Env) (s0 : SyncState)
    (h1 : P { is_running := true,
              progress := some
                { status := "running", started_at := env.now, current_file := none,
                  files_completed := 0, total_files := env.total_files, percentage := 0 },
              last_sync := s0.last_sync })
    (h0 : ∀ s : SyncState, s.is_running = false → s.progress = none → P s)
    (hstep : ∀ (acc : Nat × SyncState × List SyncState) (line : String),
      P acc.2.1 → (∀ x ∈ acc.2.2, P x) →
      P (lineStep env.total_files acc line).2.1 ∧
        ∀ x ∈ (lineStep env.total_files acc line).2.2, P x) :
    ∀ x ∈ (run_sync_background env s0).trace, P x := by
  intro x hx
  rcases hres : (run_sync_body env s0).result with msg | sF
  · simp only [run_sync_background, hres] at hx
    rcases List.mem_append.mp hx with h | h
    · exact body_trace_pred P env s0 h1 h0 hstep x h
    · simp at h; subst h; exact h0 _ rfl rfl
  · simp only [run_sync_background, hres] at hx
    exact body_trace_pred P env s0 h1 h0 hstep x hx

/-- Helper: one stdout-loop step preserves the C4 invariant for the
accumulator state and every trace entry: the step never changes
`is_running` and maps present progress to present progress. -/
lemma lineStep_consistent (tf : Nat) (acc : Nat × SyncState × List SyncState)
    (line : String) (hs : running_progress_consistent acc.2.1)
    (ht : ∀ x ∈ acc.2.2, running_progress_consistent x) :
    running_progress_consistent (lineStep tf acc line).2.1 ∧
      ∀ x ∈ (lineStep tf acc line).2.2, running_progress_consistent x := by
  obtain ⟨fc, s, tr⟩ := acc
  dsimp only at hs ht
  by_cases hq : classifyLine line
  · rcases hp : s.progress with _ | p
    · constructor
      · simpa [lineStep, hq, hp] using hs
      · intro x hx
        simp [lineStep, hq, hp] at hx
        rcases hx with h | h
        · exact ht x h
        · subst h; exact hs
    · have hrun : s.is_running = true := by
        unfold running_progress_consistent at hs
        rw [hs, hp]; rfl
      constructor
      · simp [lineStep, hq, hp, running_progress_consistent, hrun]
      · intro x hx
        simp [lineStep, hq, hp] at hx
        rcases hx with h | h
        · exact ht x h
        · subst h
          simp [running_progress_consistent, hrun]
  · constructor
    · simpa [lineStep, hq] using hs
    · intro x hx
      simp [lineStep, hq] at hx
      exact ht x hx

/-- C4. The initial shared state satisfies `is_running ⇔ progress
present`, and every state the job run writes under the lock (the
observable states between lock-protected updates) satisfies it as well. -/
theorem trace_states_consistent :
    running_progress_consistent initial_sync_state ∧
    ∀ (env : Env) (s0 : SyncState) (s : SyncState),
      s ∈ (run_sync_background env s0).trace → running_progress_consistent s := by
  refine ⟨rfl, ?_⟩
  intro env s0 s hs
  exact run_trace_pred running_progress_consistent env s0 rfl
    (fun t h1 h2 => by simp [running_progress_consistent, h1, h2])
    (fun acc line hA hT => lineStep_consistent env.total_files acc line hA hT) s hs

/-- Witness for `trace_states_consistent`: the running snapshot recorded
by the job started in `envNoRsync`. -/
theorem trace_states_consistent_witness :
    running_progress_consistent
      { is_running := true,
        progress := some
          { status := "running", started_at := "t0", current_file := none,
            files_completed := 0, total_files := 2, percentage := 0 },
        last_sync := none } :=
  trace_states_consistent.2 envNoRsync initial_sync_state
    { is_running := true,
      progress := some
        { status := "running", started_at := "t0", current_file := none,
          files_completed := 0, total_files := 2, percentage := 0 },
      last_sync := none }
    (by decide)

lemma pyRoundRatio_eq_pyRound (num den : Nat) (hden : 0 < den) :
    (pyRoundRatio num den : ℤ) = pyRound ((num : ℚ) / (den : ℚ)) := by
  have hd0 : (0 : ℚ) < (den : ℚ) := by exact_mod_cast hden
  have hqnn : (0 : ℚ) ≤ (num : ℚ) / (den : ℚ) :=
    div_nonneg (Nat.cast_nonneg num) hd0.le
  have hfloor : ⌊(num : ℚ) / (den : ℚ)⌋ = ((num / den : ℕ) : ℤ) := by
    rw [← Int.natCast_floor_eq_floor hqnn, Nat.floor_div_eq_div]
  have hnum : (den : ℚ) * ((num / den : ℕ) : ℚ) + ((num % den : ℕ) : ℚ) = (num : ℚ) := by
    exact_mod_cast Nat.div_add_mod num den
  have hfrac : (num : ℚ) / (den : ℚ) - (((num / den : ℕ) : ℤ) : ℚ) =
      ((num % den : ℕ) : ℚ) / (den : ℚ) := by
    rw [Int.cast_natCast]
    field_simp
    linarith [hnum]
  have hlt : ((num : ℚ) / (den : ℚ) - (((num / den : ℕ) : ℤ) : ℚ) < 1 / 2) ↔
      (2 * (num % den) < den) := by
    rw [hfrac, div_lt_div_iff₀ hd0 (by norm_num : (0 : ℚ) < 2), one_mul, mul_comm]
    exact_mod_cast Iff.rfl
  have hgt : (1 / 2 < (num : ℚ) / (den : ℚ) - (((num / den : ℕ) : ℤ) : ℚ)) ↔
      (den < 2 * (num % den)) := by
    rw [hfrac, div_lt_div_iff₀ (by norm_num : (0 : ℚ) < 2) hd0, one_mul, mul_comm]
    exact_mod_cast Iff.rfl
  have hpar : (((num / den : ℕ) : ℤ) % 2 = 0) ↔ ((num / den) % 2 = 0) := by omega
  simp only [pyRound, pyRoundRatio]
  rw [hfloor]
  by_cases h1 : 2 * (num % den) < den
  · rw [if_pos (hlt.mpr h1), if_pos h1]
  · rw [if_neg (fun hc => h1 (hlt.mp hc)), if_neg h1]
    by_cases h2 : den < 2 * (num % den)
    · rw [if_pos (hgt.mpr h2), if_pos h2]
      push_cast; ring
    · rw [if_neg (fun hc => h2 (hgt.mp hc)), if_neg h2]
      by_cases h3 : (num / den) % 2 = 0
      · rw [if_pos h3, if_pos (hpar.mpr h3)]
      · rw [if_neg h3, if_neg (fun hc => h3 (hpar.mp hc))]
        push_cast; ring

/-- Helper: one stdout-loop step preserves the C7 invariant. -/
lemma lineStep_percentage_ok (tf : Nat) (acc : Nat × SyncState × List SyncState)
    (line : String) (hs : percentage_ok tf acc.2.1)
    (ht : ∀ x ∈ acc.2.2, percentage_ok tf x) :
    percentage_ok tf (lineStep tf acc line).2.1 ∧
      ∀ x ∈ (lineStep tf acc line).2.2, percentage_ok tf x := by
  obtain ⟨fc, s, tr⟩ := acc
  dsimp only at hs ht
  by_cases hq : classifyLine line
  · rcases hp : s.progress with _ | p
    · constructor
      · simpa [lineStep, hq, hp] using hs
      · intro x hx
        simp [lineStep, hq, hp] at hx
        rcases hx with h | h
        · exact ht x h
        · subst h; exact hs
    · obtain ⟨hge, hle, hzero⟩ := hs p hp
      have hnew : percentage_ok tf (lineStep tf (fc, s, tr) line).2.1 := by
        intro p' hp'
        simp [lineStep, hq, hp] at hp'
        by_cases htf : 0 < tf
        · rw [← hp']
          simp only [htf, if_true, ite_true]
          refine ⟨le_min (by norm_num) (Int.natCast_nonneg _), min_le_left _ _, ?_⟩
          intro h0; omega
        · have htf0 : tf = 0 := by omega
          rw [← hp']
          simp only [htf, if_false, ite_false]
          exact ⟨hge, hle, fun _ => hzero htf0⟩
      refine ⟨hnew, ?_⟩
      intro x hx
      simp only [lineStep, hq, if_true, ite_true, hp] at hx ⊢
      rcases List.mem_append.mp hx with h | h
      · exact ht x h
      · simp at h
        subst h
        have := hnew
        simp only [lineStep, hq, if_true, ite_true, hp] at this
        exact this
  · constructor
    · simpa [lineStep, hq] using hs
    · intro x hx
      simp [lineStep, hq] at hx
      exact ht x hx

/-- C7. Every progress snapshot the run records has a percentage in
`[0, 99]` — pinned to 0 for the whole run when the item count taken at
start is 0 — and a qualifying line with a positive total recomputes the
percentage as `min 99 (round (files_completed / total_files * 100))`
(round half to even, on the exact ratio). -/
theorem percentage_bounded (env : Env) (s0 : SyncState) :
    (∀ s ∈ (run_sync_background env s0).trace, ∀ p, s.progress = some p →
      0 ≤ p.percentage ∧ p.percentage ≤ 99 ∧
        (env.total_files = 0 → p.percentage = 0)) ∧
    (∀ (total_files fc : Nat) (s : SyncState) (tr : List SyncState)
      (line : String) (p : SyncProgress),
      classifyLine line = true → s.progress = some p → 0 < total_files →
      ∀ p', ((lineStep total_files (fc, s, tr) line).2.1).progress = some p' →
        p'.percentage =
          min 99 (pyRound (((fc : ℚ) + 1) / (total_files : ℚ) * 100))) := by
  constructor
  · intro s hs p hp
    refine run_trace_pred (percentage_ok env.total_files) env s0 ?_ ?_ ?_ s hs p hp
    · intro p0 hp0
      rw [Option.some_inj] at hp0
      subst hp0
      exact ⟨le_refl 0, by norm_num, fun _ => rfl⟩
    · intro t h1 h2 p0 hp0
      rw [h2] at hp0
      cases hp0
    · intro acc line hA hT
      exact lineStep_percentage_ok env.total_files acc line hA hT
  · intro total_files fc s tr line p hq hp htf p' hp'
    simp [lineStep, hq, hp] at hp'
    rw [← hp']
    simp only [htf, if_true, ite_true]
    rw [pyRoundRatio_eq_pyRound _ _ htf]
    have harg : (((fc + 1) * 100 : ℕ) : ℚ) / (total_files : ℚ) =
        ((fc : ℚ) + 1) / (total_files : ℚ) * 100 := by
      push_cast
      ring
    rw [harg]

/-- Witness for `percentage_bounded`: the initial snapshot of the
`envNoRsync` run has percentage 0, within bounds. -/
theorem percentage_bounded_witness :
    0 ≤ (SyncProgress.mk "running" "t0" none 0 2 0).percentage ∧
    (SyncProgress.mk "running" "t0" none 0 2 0).percentage ≤ 99 ∧
    (envNoRsync.total_files = 0 →
      (SyncProgress.mk "running" "t0" none 0 2 0).percentage = 0) :=
  (percentage_bounded envNoRsync initial_sync_state).1
    { is_running := true,
      progress := some (SyncProgress.mk "running" "t0" none 0 2 0),
      last_sync := none }
    (by decide) (SyncProgress.mk "running" "t0" none 0 2 0) rfl
